import Mathlib

/-!
Shallow embedding of the darts CRUD service
(src/src/api/darts.py and src/src/models/darts.py).

The SQLAlchemy ORM model `darts` becomes a Lean structure; the database
session becomes an explicit `DB` state (a list of persisted rows plus the
auto-increment counter for the primary key).  Each FastAPI handler becomes a
function from its inputs, the current UTC clock reading (a `Nat`), a flag
telling whether the store accepts the commit, and the incoming `DB`, to a
`Result` holding the HTTP response, the resulting `DB`, and whether the
handler committed or rolled back.  Pydantic validation of the request body
against `dartsCreate` (required `username`, `game`, `game_type`; optional
`throws`, `score`, `max_score`) is modelled from a raw JSON payload in which
each optional field is omitted, explicit null, or an integer, so that
`model_dump(exclude_unset=...)` can be embedded faithfully.
-/

namespace Darts

/-- Serialized column value, as produced by `serialize_sqlalchemy_obj`. -/
inductive Value where
  | i : Int → Value
  | s : String → Value
  | t : Nat → Value
  | null : Value
deriving DecidableEq, Repr

/-- The SQLAlchemy ORM row of table `darts` (src/src/models/darts.py,
class `darts`): integer primary key, three required strings, three nullable
integers, and the two UTC timestamps (time modelled as `Nat`). -/
structure darts where
  id : Nat
  username : String
  game : String
  game_type : String
  throws : Option Int
  score : Option Int
  max_score : Option Int
  create_date : Nat
  update_date : Nat
deriving DecidableEq, Repr

/-- Option Int serialized: NULL or an integer. -/
def optVal : Option Int → Value
  | none => Value.null
  | some n => Value.i n

/-- Embedding of `serialize_sqlalchemy_obj`: one entry per column of the
table, in column definition order. -/
def serialize_sqlalchemy_obj (r : darts) : List (String × Value) :=
  [ ("id", Value.i (Int.ofNat r.id)),
    ("username", Value.s r.username),
    ("game", Value.s r.game),
    ("game_type", Value.s r.game_type),
    ("throws", optVal r.throws),
    ("score", optVal r.score),
    ("max_score", optVal r.max_score),
    ("create_date", Value.t r.create_date),
    ("update_date", Value.t r.update_date) ]

/-- A JSON field that is an optional integer in the schema: it can be absent
from the payload, present as null, or present as an integer. -/
inductive JOptInt where
  | omitted
  | null
  | val : Int → JOptInt
deriving DecidableEq, Repr

/-- Raw request body before Pydantic validation.  Required string fields are
`none` when absent from the JSON. -/
structure RawPayload where
  username : Option String
  game : Option String
  game_type : Option String
  throws : JOptInt
  score : JOptInt
  max_score : JOptInt
deriving DecidableEq, Repr

/-- Validated `dartsCreate` Pydantic model (src/src/models/darts.py):
the field values, plus one flag per optional field recording whether the
field was explicitly supplied in the payload (Pydantic's `fields_set`,
consulted by `model_dump(exclude_unset=True)`). -/
structure dartsCreate where
  username : String
  game : String
  game_type : String
  throws : Option Int
  score : Option Int
  max_score : Option Int
  throws_set : Bool
  score_set : Bool
  max_score_set : Bool
deriving DecidableEq, Repr

/-- Value of an optional JSON field after validation: absent and null both
become `none`. -/
def JOptInt.toVal : JOptInt → Option Int
  | JOptInt.omitted => none
  | JOptInt.null => none
  | JOptInt.val n => some n

/-- Whether the optional JSON field was explicitly supplied. -/
def JOptInt.isSet : JOptInt → Bool
  | JOptInt.omitted => false
  | JOptInt.null => true
  | JOptInt.val _ => true

/-- Pydantic validation of a request body against `dartsCreate`:
succeeds exactly when the three required fields are present. -/
def validate (p : RawPayload) : Option dartsCreate :=
  match p.username, p.game, p.game_type with
  | some u, some g, some gt =>
      some { username := u, game := g, game_type := gt,
             throws := p.throws.toVal, score := p.score.toVal,
             max_score := p.max_score.toVal,
             throws_set := p.throws.isSet, score_set := p.score.isSet,
             max_score_set := p.max_score.isSet }
  | _, _, _ => none

/-- A value in the dict produced by `model_dump`. -/
inductive FieldVal where
  | str : String → FieldVal
  | optInt : Option Int → FieldVal
deriving DecidableEq, Repr

/-- Embedding of `darts_data.model_dump(exclude_unset=False)`: every schema
field, in field definition order. -/
def model_dump_all (d : dartsCreate) : List (String × FieldVal) :=
  [ ("username", FieldVal.str d.username),
    ("game", FieldVal.str d.game),
    ("game_type", FieldVal.str d.game_type),
    ("throws", FieldVal.optInt d.throws),
    ("score", FieldVal.optInt d.score),
    ("max_score", FieldVal.optInt d.max_score) ]

/-- Embedding of `darts_data.model_dump(exclude_unset=True)`: only the
fields explicitly supplied in the payload.  The required fields are always
present (validation would have failed otherwise). -/
def model_dump_set (d : dartsCreate) : List (String × FieldVal) :=
  [ ("username", FieldVal.str d.username),
    ("game", FieldVal.str d.game),
    ("game_type", FieldVal.str d.game_type) ]
  ++ (if d.throws_set then [("throws", FieldVal.optInt d.throws)] else [])
  ++ (if d.score_set then [("score", FieldVal.optInt d.score)] else [])
  ++ (if d.max_score_set then [("max_score", FieldVal.optInt d.max_score)] else [])

/-- Embedding of one `setattr(record, key, value)` step of the update loops:
only the six schema field names can ever be written; `id`, `create_date`
and `update_date` are not keys of any `model_dump` of `dartsCreate`. -/
def setattr (r : darts) : String × FieldVal → darts
  | ("username", FieldVal.str v) => { r with username := v }
  | ("game", FieldVal.str v) => { r with game := v }
  | ("game_type", FieldVal.str v) => { r with game_type := v }
  | ("throws", FieldVal.optInt v) => { r with throws := v }
  | ("score", FieldVal.optInt v) => { r with score := v }
  | ("max_score", FieldVal.optInt v) => { r with max_score := v }
  | _ => r

/-- The `for key, value in data.items(): setattr(record, key, value)` loop. -/
def applyData (r : darts) (data : List (String × FieldVal)) : darts :=
  data.foldl setattr r

/-- The database state: the persisted rows in the store's natural retrieval
order, and the auto-increment counter of the integer primary key. -/
structure DB where
  records : List darts
  next_id : Nat
deriving DecidableEq, Repr

/-- HTTP response body. -/
inductive Body where
  | record : List (String × Value) → Body
  | records : List (List (String × Value)) → Body
  | message : String → Body
deriving DecidableEq, Repr

/-- HTTP response: status code and body. -/
structure Response where
  status : Nat
  body : Body
deriving DecidableEq, Repr

/-- Outcome of one request: the response, the database state afterwards,
and whether the handler committed respectively rolled back the session. -/
structure Result where
  resp : Response
  db : DB
  committed : Bool
  rolledBack : Bool
deriving DecidableEq, Repr

/-- Response of `raise HTTPException(status_code=404, ...)` of the handlers. -/
def notFoundResp (id : Nat) : Response :=
  { status := 404, body := Body.message ("darts with id " ++ toString id ++ " not found") }

/-- Response of the broad `except Exception` handler (status 500). -/
def serverErrorResp : Response :=
  { status := 500, body := Body.message "Internal server error" }

/-- Response of FastAPI rejecting a body that fails Pydantic validation. -/
def validationErrorResp : Response :=
  { status := 422, body := Body.message "validation error" }

/-- The `db.query(darts).filter(darts.id == id).first()` lookup: the first
row with this id in retrieval order, if any. -/
def findById (l : List darts) (id : Nat) : Option darts :=
  l.find? (fun r => r.id == id)

/-- Replace the first row with the given id (the handlers mutate the single
object returned by `.first()` and commit). -/
def replaceFirst (l : List darts) (id : Nat) (r' : darts) : List darts :=
  match l with
  | [] => []
  | x :: xs => if x.id == id then r' :: xs else x :: replaceFirst xs id r'

/-- Remove the first row with the given id (`db.delete(record)`). -/
def eraseFirst (l : List darts) (id : Nat) : List darts :=
  match l with
  | [] => []
  | x :: xs => if x.id == id then xs else x :: eraseFirst xs id

/-- Embedding of `list_darts` (GET /api/v1/darts): `offset = (page-1)*limit`,
then the slice `offset .. offset+limit` of the rows in retrieval order,
serialized.  No commit and no rollback. -/
def list_darts (page limit : Nat) (db : DB) : Result :=
  let offset := (page - 1) * limit
  let darts_records := (db.records.drop offset).take limit
  { resp := { status := 200,
              body := Body.records (darts_records.map serialize_sqlalchemy_obj) },
    db := db, committed := false, rolledBack := false }

/-- Embedding of `create_record` (POST /api/v1/darts): builds
`darts(**darts_data.model_dump(exclude_unset=True))` on top of the column
defaults, stamps `create_date` and `update_date` with the current UTC time
`t`, and commits; the store assigns the next unused primary key.  If the
store rejects the commit, the session is rolled back and a 500 returned. -/
def create_record (d : dartsCreate) (t : Nat) (commitOk : Bool) (db : DB) : Result :=
  let new_record :=
    applyData
      { id := 0, username := "", game := "", game_type := "",
        throws := none, score := none, max_score := none,
        create_date := 0, update_date := 0 }
      (model_dump_set d)
  let new_record := { new_record with create_date := t, update_date := t }
  if commitOk then
    let persisted := { new_record with id := db.next_id }
    { resp := { status := 200, body := Body.record (serialize_sqlalchemy_obj persisted) },
      db := { records := db.records ++ [persisted], next_id := db.next_id + 1 },
      committed := true, rolledBack := false }
  else
    { resp := serverErrorResp, db := db, committed := false, rolledBack := true }

/-- Embedding of `get_darts_by_id` (GET /api/v1/darts/id): serialize the
matching row or raise 404.  No commit and no rollback on either path. -/
def get_darts_by_id (id : Nat) (db : DB) : Result :=
  match findById db.records id with
  | none =>
      { resp := notFoundResp id, db := db, committed := false, rolledBack := false }
  | some record =>
      { resp := { status := 200, body := Body.record (serialize_sqlalchemy_obj record) },
        db := db, committed := false, rolledBack := false }

/-- Embedding of `update_darts_full` (PUT /api/v1/darts/id): 404 before any
mutation when the id is absent; otherwise assign every field of
`model_dump(exclude_unset=False)`, stamp `update_date`, and commit, rolling
back with a 500 if the store rejects the commit. -/
def update_darts_full (id : Nat) (d : dartsCreate) (t : Nat) (commitOk : Bool)
    (db : DB) : Result :=
  match findById db.records id with
  | none =>
      { resp := notFoundResp id, db := db, committed := false, rolledBack := false }
  | some record =>
      let record' := { applyData record (model_dump_all d) with update_date := t }
      if commitOk then
        { resp := { status := 200, body := Body.record (serialize_sqlalchemy_obj record') },
          db := { db with records := replaceFirst db.records id record' },
          committed := true, rolledBack := false }
      else
        { resp := serverErrorResp, db := db, committed := false, rolledBack := true }

/-- Embedding of `update_darts_partial` (PATCH /api/v1/darts/id): same as
the full update but assigning only `model_dump(exclude_unset=True)`, so
omitted fields keep their stored values. -/
def update_darts_patch (id : Nat) (d : dartsCreate) (t : Nat) (commitOk : Bool)
    (db : DB) : Result :=
  match findById db.records id with
  | none =>
      { resp := notFoundResp id, db := db, committed := false, rolledBack := false }
  | some record =>
      let record' := { applyData record (model_dump_set d) with update_date := t }
      if commitOk then
        { resp := { status := 200, body := Body.record (serialize_sqlalchemy_obj record') },
          db := { db with records := replaceFirst db.records id record' },
          committed := true, rolledBack := false }
      else
        { resp := serverErrorResp, db := db, committed := false, rolledBack := true }

/-- Embedding of `delete_darts` (DELETE /api/v1/darts/id): 404 when the id
is absent; otherwise remove the row, commit, and return the confirmation
message; roll back with a 500 if the store rejects the commit. -/
def delete_darts (id : Nat) (commitOk : Bool) (db : DB) : Result :=
  match findById db.records id with
  | none =>
      { resp := notFoundResp id, db := db, committed := false, rolledBack := false }
  | some _ =>
      if commitOk then
        { resp := { status := 200,
                    body := Body.message ("darts with id " ++ toString id ++ " deleted successfully") },
          db := { db with records := eraseFirst db.records id },
          committed := true, rolledBack := false }
      else
        { resp := serverErrorResp, db := db, committed := false, rolledBack := true }

/-- The PATCH route including FastAPI body validation: a payload failing
Pydantic validation of `dartsCreate` is rejected with a 422 before the
handler runs. -/
def patch_route (id : Nat) (p : RawPayload) (t : Nat) (commitOk : Bool) (db : DB) : Result :=
  match validate p with
  | none => { resp := validationErrorResp, db := db, committed := false, rolledBack := false }
  | some d => update_darts_patch id d t commitOk db

/-- The PUT route including FastAPI body validation. -/
def put_route (id : Nat) (p : RawPayload) (t : Nat) (commitOk : Bool) (db : DB) : Result :=
  match validate p with
  | none => { resp := validationErrorResp, db := db, committed := false, rolledBack := false }
  | some d => update_darts_full id d t commitOk db

end Darts

namespace Darts

lemma setattr_id (r : darts) (kv : String × FieldVal) : (setattr r kv).id = r.id := by
  obtain ⟨k, v⟩ := kv
  unfold setattr
  split <;> rfl

lemma setattr_create_date (r : darts) (kv : String × FieldVal) :
    (setattr r kv).create_date = r.create_date := by
  obtain ⟨k, v⟩ := kv
  unfold setattr
  split <;> rfl

lemma setattr_update_date (r : darts) (kv : String × FieldVal) :
    (setattr r kv).update_date = r.update_date := by
  obtain ⟨k, v⟩ := kv
  unfold setattr
  split <;> rfl

lemma applyData_id (r : darts) (data : List (String × FieldVal)) :
    (applyData r data).id = r.id := by
  induction data generalizing r with
  | nil => rfl
  | cons kv tl ih => simpa [applyData, List.foldl_cons, setattr_id] using
      (ih (setattr r kv)).trans (setattr_id r kv)

lemma applyData_create_date (r : darts) (data : List (String × FieldVal)) :
    (applyData r data).create_date = r.create_date := by
  induction data generalizing r with
  | nil => rfl
  | cons kv tl ih => simpa [applyData, List.foldl_cons] using
      (ih (setattr r kv)).trans (setattr_create_date r kv)

lemma applyData_update_date (r : darts) (data : List (String × FieldVal)) :
    (applyData r data).update_date = r.update_date := by
  induction data generalizing r with
  | nil => rfl
  | cons kv tl ih => simpa [applyData, List.foldl_cons] using
      (ih (setattr r kv)).trans (setattr_update_date r kv)

lemma applyData_dump_all (r : darts) (d : dartsCreate) :
    applyData r (model_dump_all d) =
      { r with username := d.username, game := d.game, game_type := d.game_type,
               throws := d.throws, score := d.score, max_score := d.max_score } := by
  rfl

lemma applyData_dump_set (r : darts) (d : dartsCreate) :
    applyData r (model_dump_set d) =
      { r with username := d.username, game := d.game, game_type := d.game_type,
               throws := if d.throws_set then d.throws else r.throws,
               score := if d.score_set then d.score else r.score,
               max_score := if d.max_score_set then d.max_score else r.max_score } := by
  obtain ⟨u, g, gt, th, sc, ms, ths, scs, mss⟩ := d
  cases ths <;> cases scs <;> cases mss <;> rfl

end Darts

namespace Darts

lemma validate_fields {p : RawPayload} {d : dartsCreate} (h : validate p = some d) :
    d.throws = p.throws.toVal ∧ d.score = p.score.toVal ∧
    d.max_score = p.max_score.toVal ∧ d.throws_set = p.throws.isSet ∧
    d.score_set = p.score.isSet ∧ d.max_score_set = p.max_score.isSet := by
  obtain ⟨u, g, gt, th, sc, ms⟩ := p
  cases u with
  | none => simp [validate] at h
  | some u =>
    cases g with
    | none => simp [validate] at h
    | some g =>
      cases gt with
      | none => simp [validate] at h
      | some gt =>
        simp only [validate, Option.some.injEq] at h
        subst h
        exact ⟨rfl, rfl, rfl, rfl, rfl, rfl⟩

lemma findById_some {l : List darts} {id : Nat} {r : darts}
    (h : findById l id = some r) : r ∈ l ∧ r.id = id := by
  refine ⟨List.mem_of_find?_eq_some h, ?_⟩
  have hp := List.find?_some h
  simpa using hp

lemma mem_replaceFirst {l : List darts} {id : Nat} {r' x : darts}
    (hx : x ∈ replaceFirst l id r') : x = r' ∨ x ∈ l := by
  induction l with
  | nil => cases hx
  | cons y ys ih =>
    rw [replaceFirst] at hx
    split at hx
    · rcases List.mem_cons.mp hx with hx | hx
      · exact Or.inl hx
      · exact Or.inr (List.mem_cons_of_mem y hx)
    · rcases List.mem_cons.mp hx with hx | hx
      · exact Or.inr (hx ▸ List.mem_cons_self y ys)
      · rcases ih hx with hx | hx
        · exact Or.inl hx
        · exact Or.inr (List.mem_cons_of_mem y hx)

lemma findById_eraseFirst {l : List darts} {id : Nat}
    (hnd : (l.map darts.id).Nodup) : findById (eraseFirst l id) id = none := by
  induction l with
  | nil => rfl
  | cons y ys ih =>
    simp only [List.map_cons, List.nodup_cons, List.mem_map] at hnd
    obtain ⟨hy, hys⟩ := hnd
    rw [eraseFirst]
    split
    · rename_i h
      rw [beq_iff_eq] at h
      rw [findById, List.find?_eq_none]
      intro x hx
      simp only [beq_iff_eq]
      intro hxid
      exact hy ⟨x, hx, by rw [hxid, h]⟩
    · rename_i h
      rw [findById, List.find?_cons_of_neg _ (by simpa using h)]
      exact ih hys

end Darts

namespace Darts

/-- C1: for every valid create payload, `create_record` persists a new row,
stamps `create_date` and `update_date` with the same current UTC time `t`
so that they are equal at the creation instant, and returns the fully
serialized new row whose assigned id (the auto-increment counter) is used
by no previously stored row. -/
theorem create_record_fresh_id_equal_timestamps (db : DB) (d : dartsCreate) (t : Nat)
    (hid : ∀ r ∈ db.records, r.id < db.next_id) :
    ∃ newRec : darts,
      (create_record d t true db).resp =
        { status := 200, body := Body.record (serialize_sqlalchemy_obj newRec) } ∧
      (create_record d t true db).db.records = db.records ++ [newRec] ∧
      (create_record d t true db).committed = true ∧
      newRec.create_date = t ∧ newRec.update_date = t ∧
      newRec.create_date = newRec.update_date ∧
      ∀ r ∈ db.records, r.id ≠ newRec.id := by
  refine ⟨_, rfl, rfl, rfl, rfl, rfl, rfl, ?_⟩
  intro r hr
  exact Nat.ne_of_lt (hid r hr)

/-- A concrete database: no rows, auto-increment counter at 1. -/
def db0 : DB := { records := [], next_id := 1 }

/-- A concrete valid create payload with every optional field supplied. -/
def payload0 : dartsCreate :=
  { username := "johndoe", game := "score training", game_type := "practice",
    throws := some 10, score := some 56, max_score := some 100,
    throws_set := true, score_set := true, max_score_set := true }

/-- Witness for C1 at the empty database, payload `payload0`, time 5. -/
theorem create_record_fresh_id_equal_timestamps_witness :
    (∀ r ∈ db0.records, r.id < db0.next_id) ∧
    ∃ newRec : darts,
      (create_record payload0 5 true db0).resp =
        { status := 200, body := Body.record (serialize_sqlalchemy_obj newRec) } ∧
      (create_record payload0 5 true db0).db.records = db0.records ++ [newRec] ∧
      (create_record payload0 5 true db0).committed = true ∧
      newRec.create_date = 5 ∧ newRec.update_date = 5 ∧
      newRec.create_date = newRec.update_date ∧
      ∀ r ∈ db0.records, r.id ≠ newRec.id :=
  ⟨by intro r hr; simp [db0] at hr,
   create_record_fresh_id_equal_timestamps db0 payload0 5
     (by intro r hr; simp [db0] at hr)⟩

/-- C4: for every page at least 1 and limit between 1 and 1000, `list_darts`
returns at most `limit` serialized rows, namely the slice of the retrieval
order starting at offset `(page-1)*limit`, and returns the empty sequence
(status 200, no error) whenever the offset reaches the record count. -/
theorem list_darts_pagination (db : DB) (page limit : Nat)
    (_hp : 1 ≤ page) (_hl1 : 1 ≤ limit) (_hl2 : limit ≤ 1000) :
    ∃ recs : List darts,
      (list_darts page limit db).resp =
        { status := 200, body := Body.records (recs.map serialize_sqlalchemy_obj) } ∧
      recs = (db.records.drop ((page - 1) * limit)).take limit ∧
      recs.length ≤ limit ∧
      (db.records.length ≤ (page - 1) * limit → recs = []) := by
  refine ⟨(db.records.drop ((page - 1) * limit)).take limit, rfl, rfl, ?_, ?_⟩
  · exact List.length_take_le limit (db.records.drop ((page - 1) * limit))
  · intro h
    rw [List.drop_eq_nil_of_le h, List.take_nil]

/-- Witness for C4 at the empty database `db0`, page 2, limit 10. -/
theorem list_darts_pagination_witness :
    (1 ≤ 2 ∧ 1 ≤ 10 ∧ 10 ≤ 1000) ∧
    ∃ recs : List darts,
      (list_darts 2 10 db0).resp =
        { status := 200, body := Body.records (recs.map serialize_sqlalchemy_obj) } ∧
      recs = (db0.records.drop ((2 - 1) * 10)).take 10 ∧
      recs.length ≤ 10 ∧
      (db0.records.length ≤ (2 - 1) * 10 → recs = []) :=
  ⟨by decide,
   list_darts_pagination db0 2 10 (by decide) (by decide) (by decide)⟩

end Darts

namespace Darts

/-- The row produced inside the PUT and PATCH handlers: the assignment loop
applied to the found row, then `record.update_date = datetime.now(UTC)`. -/
def updatedRow (rec : darts) (data : List (String × FieldVal)) (t : Nat) : darts :=
  { applyData rec data with update_date := t }

lemma update_darts_full_run {db : DB} {id : Nat} {rec : darts}
    (d : dartsCreate) (t : Nat) (hfind : findById db.records id = some rec) :
    update_darts_full id d t true db =
      { resp := { status := 200,
                  body := Body.record (serialize_sqlalchemy_obj
                    (updatedRow rec (model_dump_all d) t)) },
        db := { db with
                records := replaceFirst db.records id (updatedRow rec (model_dump_all d) t) },
        committed := true, rolledBack := false } := by
  unfold update_darts_full
  rw [hfind]
  rfl

lemma update_darts_patch_run {db : DB} {id : Nat} {rec : darts}
    (d : dartsCreate) (t : Nat) (hfind : findById db.records id = some rec) :
    update_darts_patch id d t true db =
      { resp := { status := 200,
                  body := Body.record (serialize_sqlalchemy_obj
                    (updatedRow rec (model_dump_set d) t)) },
        db := { db with
                records := replaceFirst db.records id (updatedRow rec (model_dump_set d) t) },
        committed := true, rolledBack := false } := by
  unfold update_darts_patch
  rw [hfind]
  rfl

/-- C2: for an existing id, the PUT route assigns every field of
`model_dump(exclude_unset=False)` to the row with replace semantics: the
three required strings and all three optional fields take exactly the
validated payload's values, so any optional field absent from the payload
is overwritten with its default null; `update_date` is stamped with the
current time and the updated serialized row is returned.  In particular a
PUT carrying only the three required fields resets `throws`, `score` and
`max_score` to null. -/
theorem put_full_replace (db : DB) (id : Nat) (p : RawPayload) (d : dartsCreate)
    (t : Nat) (rec : darts)
    (hv : validate p = some d)
    (hfind : findById db.records id = some rec) :
    ∃ rec' : darts,
      (put_route id p t true db).resp =
        { status := 200, body := Body.record (serialize_sqlalchemy_obj rec') } ∧
      (put_route id p t true db).db.records = replaceFirst db.records id rec' ∧
      rec'.username = d.username ∧ rec'.game = d.game ∧
      rec'.game_type = d.game_type ∧
      rec'.throws = d.throws ∧ rec'.score = d.score ∧
      rec'.max_score = d.max_score ∧
      (p.throws = JOptInt.omitted → rec'.throws = none) ∧
      (p.score = JOptInt.omitted → rec'.score = none) ∧
      (p.max_score = JOptInt.omitted → rec'.max_score = none) ∧
      rec'.update_date = t := by
  obtain ⟨hthv, hscv, hmsv, -, -, -⟩ := validate_fields hv
  have hroute : put_route id p t true db = update_darts_full id d t true db := by
    unfold put_route
    rw [hv]
  have hrun := update_darts_full_run d t hfind
  refine ⟨updatedRow rec (model_dump_all d) t,
    by rw [hroute, hrun], by rw [hroute, hrun], ?_, ?_, ?_, ?_, ?_, ?_, ?_, ?_, ?_, rfl⟩
  · show (applyData rec (model_dump_all d)).username = d.username
    rw [applyData_dump_all]
  · show (applyData rec (model_dump_all d)).game = d.game
    rw [applyData_dump_all]
  · show (applyData rec (model_dump_all d)).game_type = d.game_type
    rw [applyData_dump_all]
  · show (applyData rec (model_dump_all d)).throws = d.throws
    rw [applyData_dump_all]
  · show (applyData rec (model_dump_all d)).score = d.score
    rw [applyData_dump_all]
  · show (applyData rec (model_dump_all d)).max_score = d.max_score
    rw [applyData_dump_all]
  · intro h
    show (applyData rec (model_dump_all d)).throws = none
    rw [applyData_dump_all, hthv, h]
    rfl
  · intro h
    show (applyData rec (model_dump_all d)).score = none
    rw [applyData_dump_all, hscv, h]
    rfl
  · intro h
    show (applyData rec (model_dump_all d)).max_score = none
    rw [applyData_dump_all, hmsv, h]
    rfl

/-- A concrete stored row with every optional field populated. -/
def rec1 : darts :=
  { id := 1, username := "jcurtis", game := "cricket", game_type := "practice",
    throws := some 20, score := some 100, max_score := some 180,
    create_date := 3, update_date := 4 }

/-- A concrete one-row database holding `rec1`. -/
def db1 : DB := { records := [rec1], next_id := 2 }

/-- A concrete PUT body carrying only the three required fields. -/
def requiredOnlyPayload : RawPayload :=
  { username := some "johndoe", game := some "301", game_type := some "competition",
    throws := JOptInt.omitted, score := JOptInt.omitted, max_score := JOptInt.omitted }

/-- The `dartsCreate` value produced by validating `requiredOnlyPayload`. -/
def requiredOnlyCreate : dartsCreate :=
  { username := "johndoe", game := "301", game_type := "competition",
    throws := none, score := none, max_score := none,
    throws_set := false, score_set := false, max_score_set := false }

/-- A concrete PUT body supplying `throws` as 15, omitting `score`, and
supplying `max_score` as explicit null. -/
def putMixedPayload : RawPayload :=
  { username := some "johndoe", game := some "301", game_type := some "competition",
    throws := JOptInt.val 15, score := JOptInt.omitted, max_score := JOptInt.null }

/-- The `dartsCreate` value produced by validating `putMixedPayload`. -/
def putMixedCreate : dartsCreate :=
  { username := "johndoe", game := "301", game_type := "competition",
    throws := some 15, score := none, max_score := none,
    throws_set := true, score_set := false, max_score_set := true }

/-- Witness for C2: a PUT of `putMixedPayload` on the stored row `rec1` at
time 9 applies the supplied `throws` and nulls out the absent `score`. -/
theorem put_full_replace_witness :
    (validate putMixedPayload = some putMixedCreate ∧
     findById db1.records 1 = some rec1) ∧
    ∃ rec' : darts,
      (put_route 1 putMixedPayload 9 true db1).resp =
        { status := 200, body := Body.record (serialize_sqlalchemy_obj rec') } ∧
      (put_route 1 putMixedPayload 9 true db1).db.records =
        replaceFirst db1.records 1 rec' ∧
      rec'.username = putMixedCreate.username ∧
      rec'.game = putMixedCreate.game ∧
      rec'.game_type = putMixedCreate.game_type ∧
      rec'.throws = putMixedCreate.throws ∧
      rec'.score = putMixedCreate.score ∧
      rec'.max_score = putMixedCreate.max_score ∧
      (putMixedPayload.throws = JOptInt.omitted → rec'.throws = none) ∧
      (putMixedPayload.score = JOptInt.omitted → rec'.score = none) ∧
      (putMixedPayload.max_score = JOptInt.omitted → rec'.max_score = none) ∧
      rec'.update_date = 9 :=
  ⟨⟨rfl, rfl⟩,
   put_full_replace db1 1 putMixedPayload putMixedCreate 9 rec1 rfl rfl⟩

/-- C8: for every existing id and accepted payload, neither the PUT handler
nor the PATCH handler changes the row's `id` or `create_date`: the input
schema contains neither field, so the assignment loop can never write them. -/
theorem updates_preserve_id_and_create_date (db : DB) (id : Nat) (d : dartsCreate)
    (t : Nat) (rec : darts) (hfind : findById db.records id = some rec) :
    (∃ rec' : darts,
      (update_darts_full id d t true db).db.records = replaceFirst db.records id rec' ∧
      (update_darts_full id d t true db).resp =
        { status := 200, body := Body.record (serialize_sqlalchemy_obj rec') } ∧
      rec'.id = rec.id ∧ rec'.create_date = rec.create_date) ∧
    (∃ rec'' : darts,
      (update_darts_patch id d t true db).db.records = replaceFirst db.records id rec'' ∧
      (update_darts_patch id d t true db).resp =
        { status := 200, body := Body.record (serialize_sqlalchemy_obj rec'') } ∧
      rec''.id = rec.id ∧ rec''.create_date = rec.create_date) := by
  constructor
  · have hrun := update_darts_full_run d t hfind
    exact ⟨updatedRow rec (model_dump_all d) t,
      by rw [hrun], by rw [hrun],
      applyData_id rec (model_dump_all d),
      applyData_create_date rec (model_dump_all d)⟩
  · have hrun := update_darts_patch_run d t hfind
    exact ⟨updatedRow rec (model_dump_set d) t,
      by rw [hrun], by rw [hrun],
      applyData_id rec (model_dump_set d),
      applyData_create_date rec (model_dump_set d)⟩

/-- Witness for C8 on the one-row database `db1` at time 9. -/
theorem updates_preserve_id_and_create_date_witness :
    (findById db1.records 1 = some rec1) ∧
    ((∃ rec' : darts,
      (update_darts_full 1 requiredOnlyCreate 9 true db1).db.records =
        replaceFirst db1.records 1 rec' ∧
      (update_darts_full 1 requiredOnlyCreate 9 true db1).resp =
        { status := 200, body := Body.record (serialize_sqlalchemy_obj rec') } ∧
      rec'.id = rec1.id ∧ rec'.create_date = rec1.create_date) ∧
    (∃ rec'' : darts,
      (update_darts_patch 1 requiredOnlyCreate 9 true db1).db.records =
        replaceFirst db1.records 1 rec'' ∧
      (update_darts_patch 1 requiredOnlyCreate 9 true db1).resp =
        { status := 200, body := Body.record (serialize_sqlalchemy_obj rec'') } ∧
      rec''.id = rec1.id ∧ rec''.create_date = rec1.create_date)) :=
  ⟨rfl, updates_preserve_id_and_create_date db1 1 requiredOnlyCreate 9 rec1 rfl⟩

end Darts

namespace Darts

/-- The empty PATCH body: every field absent from the JSON. -/
def emptyPayload : RawPayload :=
  { username := none, game := none, game_type := none,
    throws := JOptInt.omitted, score := JOptInt.omitted,
    max_score := JOptInt.omitted }

/-- A PATCH body that supplies exactly the three required fields, with the
values currently stored in the row `rec`. -/
def echoPayload (rec : darts) : RawPayload :=
  { username := some rec.username, game := some rec.game,
    game_type := some rec.game_type,
    throws := JOptInt.omitted, score := JOptInt.omitted,
    max_score := JOptInt.omitted }

/-- The `dartsCreate` value produced by validating `echoPayload rec`. -/
def echoCreate (rec : darts) : dartsCreate :=
  { username := rec.username, game := rec.game, game_type := rec.game_type,
    throws := none, score := none, max_score := none,
    throws_set := false, score_set := false, max_score_set := false }

/-- Counterexample to C3 as stated: on the one-row database `db1`, a PATCH
of id 1 with an empty payload does not succeed — the body schema
`dartsCreate` requires `username`, `game` and `game_type`, so validation
rejects the request with a 422 and the database (in particular the row's
`update_date`) is completely unchanged. -/
theorem patch_empty_payload_rejected_cex :
    (patch_route 1 emptyPayload 10 true db1).resp.status = 422 ∧
    (patch_route 1 emptyPayload 10 true db1).resp.status ≠ 200 ∧
    (patch_route 1 emptyPayload 10 true db1).db = db1 := by
  exact ⟨rfl, by decide, rfl⟩

/-- C3 (amended): for every database and id, a PATCH with an empty payload
is rejected by schema validation with a 422 and leaves the whole database,
`update_date` included, unchanged; and for every existing id, a PATCH whose
payload sets exactly the required fields to their currently stored values
leaves every stored field unchanged except `update_date`, which strictly
increases when the clock has advanced past the stored `update_date`. -/
theorem patch_empty_rejected_echo_frame (db : DB) (id : Nat) (rec : darts) (t : Nat)
    (hfind : findById db.records id = some rec) (ht : rec.update_date < t) :
    ((patch_route id emptyPayload t true db).resp.status = 422 ∧
     (patch_route id emptyPayload t true db).db = db) ∧
    ∃ rec' : darts,
      (patch_route id (echoPayload rec) t true db).resp =
        { status := 200, body := Body.record (serialize_sqlalchemy_obj rec') } ∧
      (patch_route id (echoPayload rec) t true db).db.records =
        replaceFirst db.records id rec' ∧
      rec'.id = rec.id ∧ rec'.username = rec.username ∧ rec'.game = rec.game ∧
      rec'.game_type = rec.game_type ∧ rec'.throws = rec.throws ∧
      rec'.score = rec.score ∧ rec'.max_score = rec.max_score ∧
      rec'.create_date = rec.create_date ∧
      rec'.update_date = t ∧ rec.update_date < rec'.update_date := by
  refine ⟨⟨rfl, rfl⟩, ?_⟩
  have hroute : patch_route id (echoPayload rec) t true db =
      update_darts_patch id (echoCreate rec) t true db := rfl
  have hrun := update_darts_patch_run (echoCreate rec) t hfind
  have happ : applyData rec (model_dump_set (echoCreate rec)) = rec := by
    rw [applyData_dump_set]
    rfl
  refine ⟨updatedRow rec (model_dump_set (echoCreate rec)) t,
    by rw [hroute, hrun], by rw [hroute, hrun], ?_, ?_, ?_, ?_, ?_, ?_, ?_, ?_, rfl, ?_⟩
  · show (applyData rec (model_dump_set (echoCreate rec))).id = rec.id
    rw [happ]
  · show (applyData rec (model_dump_set (echoCreate rec))).username = rec.username
    rw [happ]
  · show (applyData rec (model_dump_set (echoCreate rec))).game = rec.game
    rw [happ]
  · show (applyData rec (model_dump_set (echoCreate rec))).game_type = rec.game_type
    rw [happ]
  · show (applyData rec (model_dump_set (echoCreate rec))).throws = rec.throws
    rw [happ]
  · show (applyData rec (model_dump_set (echoCreate rec))).score = rec.score
    rw [happ]
  · show (applyData rec (model_dump_set (echoCreate rec))).max_score = rec.max_score
    rw [happ]
  · show (applyData rec (model_dump_set (echoCreate rec))).create_date = rec.create_date
    rw [happ]
  · exact ht

/-- Witness for the amended C3 on `db1`, id 1, time 10. -/
theorem patch_empty_rejected_echo_frame_witness :
    (findById db1.records 1 = some rec1 ∧ rec1.update_date < 10) ∧
    (((patch_route 1 emptyPayload 10 true db1).resp.status = 422 ∧
      (patch_route 1 emptyPayload 10 true db1).db = db1) ∧
    ∃ rec' : darts,
      (patch_route 1 (echoPayload rec1) 10 true db1).resp =
        { status := 200, body := Body.record (serialize_sqlalchemy_obj rec') } ∧
      (patch_route 1 (echoPayload rec1) 10 true db1).db.records =
        replaceFirst db1.records 1 rec' ∧
      rec'.id = rec1.id ∧ rec'.username = rec1.username ∧ rec'.game = rec1.game ∧
      rec'.game_type = rec1.game_type ∧ rec'.throws = rec1.throws ∧
      rec'.score = rec1.score ∧ rec'.max_score = rec1.max_score ∧
      rec'.create_date = rec1.create_date ∧
      rec'.update_date = 10 ∧ rec1.update_date < rec'.update_date) :=
  ⟨⟨rfl, by decide⟩,
   patch_empty_rejected_echo_frame db1 1 rec1 10 rfl (by decide)⟩

/-- C9: the list and get handlers are read-only: for every page, limit and
id (present or absent), they neither commit nor roll back and return the
database exactly as it was. -/
theorem list_and_get_read_only (db : DB) (page limit id : Nat) :
    (list_darts page limit db).db = db ∧
    (list_darts page limit db).committed = false ∧
    (list_darts page limit db).rolledBack = false ∧
    (get_darts_by_id id db).db = db ∧
    (get_darts_by_id id db).committed = false ∧
    (get_darts_by_id id db).rolledBack = false := by
  refine ⟨rfl, rfl, rfl, ?_, ?_, ?_⟩ <;>
    · unfold get_darts_by_id
      cases findById db.records id <;> rfl

/-- C10: the PATCH handler distinguishes an omitted optional field from one
supplied as null: for every existing id and accepted payload, an optional
field present as null is written and clears the stored value, while the
same field omitted from the payload keeps its stored value. -/
theorem patch_null_clears_omitted_keeps (db : DB) (id : Nat) (p : RawPayload)
    (d : dartsCreate) (t : Nat) (rec : darts)
    (hv : validate p = some d) (hfind : findById db.records id = some rec) :
    ∃ rec' : darts,
      (patch_route id p t true db).resp =
        { status := 200, body := Body.record (serialize_sqlalchemy_obj rec') } ∧
      (patch_route id p t true db).db.records = replaceFirst db.records id rec' ∧
      (p.throws = JOptInt.null → rec'.throws = none) ∧
      (p.throws = JOptInt.omitted → rec'.throws = rec.throws) ∧
      (p.score = JOptInt.null → rec'.score = none) ∧
      (p.score = JOptInt.omitted → rec'.score = rec.score) ∧
      (p.max_score = JOptInt.null → rec'.max_score = none) ∧
      (p.max_score = JOptInt.omitted → rec'.max_score = rec.max_score) := by
  obtain ⟨hthv, hscv, hmsv, hths, hscs, hmss⟩ := validate_fields hv
  have hroute : patch_route id p t true db = update_darts_patch id d t true db := by
    unfold patch_route
    rw [hv]
  have hrun := update_darts_patch_run d t hfind
  refine ⟨updatedRow rec (model_dump_set d) t,
    by rw [hroute, hrun], by rw [hroute, hrun], ?_, ?_, ?_, ?_, ?_, ?_⟩
  · intro h
    show (applyData rec (model_dump_set d)).throws = none
    rw [applyData_dump_set]
    simp [hths, hthv, h, JOptInt.isSet, JOptInt.toVal]
  · intro h
    show (applyData rec (model_dump_set d)).throws = rec.throws
    rw [applyData_dump_set]
    simp [hths, h, JOptInt.isSet]
  · intro h
    show (applyData rec (model_dump_set d)).score = none
    rw [applyData_dump_set]
    simp [hscs, hscv, h, JOptInt.isSet, JOptInt.toVal]
  · intro h
    show (applyData rec (model_dump_set d)).score = rec.score
    rw [applyData_dump_set]
    simp [hscs, h, JOptInt.isSet]
  · intro h
    show (applyData rec (model_dump_set d)).max_score = none
    rw [applyData_dump_set]
    simp [hmss, hmsv, h, JOptInt.isSet, JOptInt.toVal]
  · intro h
    show (applyData rec (model_dump_set d)).max_score = rec.max_score
    rw [applyData_dump_set]
    simp [hmss, h, JOptInt.isSet]

/-- A concrete PATCH body: `throws` explicitly null, `score` omitted,
`max_score` explicitly 120. -/
def mixedPayload : RawPayload :=
  { username := some "jcurtis", game := some "cricket",
    game_type := some "practice",
    throws := JOptInt.null, score := JOptInt.omitted,
    max_score := JOptInt.val 120 }

/-- The `dartsCreate` value produced by validating `mixedPayload`. -/
def mixedCreate : dartsCreate :=
  { username := "jcurtis", game := "cricket", game_type := "practice",
    throws := none, score := none, max_score := some 120,
    throws_set := true, score_set := false, max_score_set := true }

/-- Witness for C10 with `mixedPayload` on `db1` at time 11. -/
theorem patch_null_clears_omitted_keeps_witness :
    (validate mixedPayload = some mixedCreate ∧
     findById db1.records 1 = some rec1) ∧
    ∃ rec' : darts,
      (patch_route 1 mixedPayload 11 true db1).resp =
        { status := 200, body := Body.record (serialize_sqlalchemy_obj rec') } ∧
      (patch_route 1 mixedPayload 11 true db1).db.records =
        replaceFirst db1.records 1 rec' ∧
      (mixedPayload.throws = JOptInt.null → rec'.throws = none) ∧
      (mixedPayload.throws = JOptInt.omitted → rec'.throws = rec1.throws) ∧
      (mixedPayload.score = JOptInt.null → rec'.score = none) ∧
      (mixedPayload.score = JOptInt.omitted → rec'.score = rec1.score) ∧
      (mixedPayload.max_score = JOptInt.null → rec'.max_score = none) ∧
      (mixedPayload.max_score = JOptInt.omitted → rec'.max_score = rec1.max_score) :=
  ⟨⟨rfl, rfl⟩,
   patch_null_clears_omitted_keeps db1 1 mixedPayload mixedCreate 11 rec1 rfl rfl⟩

end Darts

namespace Darts

/-- C5: failure semantics of the mutating handlers.  When the store rejects
the commit (modelled by the flag being false), every mutating handler —
create, PUT, PATCH and delete — rolls the session back, surfaces a generic
500 error, and leaves the stored state unchanged.  A not-found condition on
PUT, PATCH or delete is detected before any mutation and answered with a
distinct 404, with no rollback and the state unchanged. -/
theorem mutating_failure_and_not_found (db : DB) (d : dartsCreate) (t : Nat)
    (id1 id2 : Nat) (rec : darts)
    (hsome : findById db.records id1 = some rec)
    (hnone : findById db.records id2 = none) :
    ((create_record d t false db).resp.status = 500 ∧
     (create_record d t false db).db = db ∧
     (create_record d t false db).rolledBack = true) ∧
    ((update_darts_full id1 d t false db).resp.status = 500 ∧
     (update_darts_full id1 d t false db).db = db ∧
     (update_darts_full id1 d t false db).rolledBack = true) ∧
    ((update_darts_patch id1 d t false db).resp.status = 500 ∧
     (update_darts_patch id1 d t false db).db = db ∧
     (update_darts_patch id1 d t false db).rolledBack = true) ∧
    ((delete_darts id1 false db).resp.status = 500 ∧
     (delete_darts id1 false db).db = db ∧
     (delete_darts id1 false db).rolledBack = true) ∧
    ((update_darts_full id2 d t true db).resp.status = 404 ∧
     (update_darts_full id2 d t true db).db = db ∧
     (update_darts_full id2 d t true db).rolledBack = false) ∧
    ((update_darts_patch id2 d t true db).resp.status = 404 ∧
     (update_darts_patch id2 d t true db).db = db ∧
     (update_darts_patch id2 d t true db).rolledBack = false) ∧
    ((delete_darts id2 true db).resp.status = 404 ∧
     (delete_darts id2 true db).db = db ∧
     (delete_darts id2 true db).rolledBack = false) := by
  refine ⟨⟨rfl, rfl, rfl⟩, ?_, ?_, ?_, ?_, ?_, ?_⟩
  · unfold update_darts_full
    rw [hsome]
    exact ⟨rfl, rfl, rfl⟩
  · unfold update_darts_patch
    rw [hsome]
    exact ⟨rfl, rfl, rfl⟩
  · unfold delete_darts
    rw [hsome]
    exact ⟨rfl, rfl, rfl⟩
  · unfold update_darts_full
    rw [hnone]
    exact ⟨rfl, rfl, rfl⟩
  · unfold update_darts_patch
    rw [hnone]
    exact ⟨rfl, rfl, rfl⟩
  · unfold delete_darts
    rw [hnone]
    exact ⟨rfl, rfl, rfl⟩

/-- Witness for C5 on `db1`: id 1 is present, id 2 is absent. -/
theorem mutating_failure_and_not_found_witness :
    (findById db1.records 1 = some rec1 ∧ findById db1.records 2 = none) ∧
    (((create_record requiredOnlyCreate 9 false db1).resp.status = 500 ∧
      (create_record requiredOnlyCreate 9 false db1).db = db1 ∧
      (create_record requiredOnlyCreate 9 false db1).rolledBack = true) ∧
    ((update_darts_full 1 requiredOnlyCreate 9 false db1).resp.status = 500 ∧
     (update_darts_full 1 requiredOnlyCreate 9 false db1).db = db1 ∧
     (update_darts_full 1 requiredOnlyCreate 9 false db1).rolledBack = true) ∧
    ((update_darts_patch 1 requiredOnlyCreate 9 false db1).resp.status = 500 ∧
     (update_darts_patch 1 requiredOnlyCreate 9 false db1).db = db1 ∧
     (update_darts_patch 1 requiredOnlyCreate 9 false db1).rolledBack = true) ∧
    ((delete_darts 1 false db1).resp.status = 500 ∧
     (delete_darts 1 false db1).db = db1 ∧
     (delete_darts 1 false db1).rolledBack = true) ∧
    ((update_darts_full 2 requiredOnlyCreate 9 true db1).resp.status = 404 ∧
     (update_darts_full 2 requiredOnlyCreate 9 true db1).db = db1 ∧
     (update_darts_full 2 requiredOnlyCreate 9 true db1).rolledBack = false) ∧
    ((update_darts_patch 2 requiredOnlyCreate 9 true db1).resp.status = 404 ∧
     (update_darts_patch 2 requiredOnlyCreate 9 true db1).db = db1 ∧
     (update_darts_patch 2 requiredOnlyCreate 9 true db1).rolledBack = false) ∧
    ((delete_darts 2 true db1).resp.status = 404 ∧
     (delete_darts 2 true db1).db = db1 ∧
     (delete_darts 2 true db1).rolledBack = false)) :=
  ⟨⟨rfl, rfl⟩,
   mutating_failure_and_not_found db1 requiredOnlyCreate 9 1 2 rec1 rfl rfl⟩

/-- C6: deleting an existing id removes its row and returns the confirmation
message naming the id; a subsequent get of that id answers 404; and deleting
an id with no present row also answers 404 with the state unchanged, so a
failed delete is idempotent rather than a crash. -/
theorem delete_then_get_not_found (db : DB) (id1 id2 : Nat) (rec : darts)
    (hnd : (db.records.map darts.id).Nodup)
    (hsome : findById db.records id1 = some rec)
    (hnone : findById db.records id2 = none) :
    (delete_darts id1 true db).resp =
      { status := 200,
        body := Body.message ("darts with id " ++ toString id1 ++ " deleted successfully") } ∧
    (delete_darts id1 true db).db.records = eraseFirst db.records id1 ∧
    (get_darts_by_id id1 (delete_darts id1 true db).db).resp.status = 404 ∧
    (delete_darts id2 true db).resp.status = 404 ∧
    (delete_darts id2 true db).db = db := by
  have hrun : delete_darts id1 true db =
      { resp := { status := 200,
                  body := Body.message ("darts with id " ++ toString id1 ++ " deleted successfully") },
        db := { db with records := eraseFirst db.records id1 },
        committed := true, rolledBack := false } := by
    unfold delete_darts
    rw [hsome]
    rfl
  have hnone2 : delete_darts id2 true db =
      { resp := notFoundResp id2, db := db, committed := false, rolledBack := false } := by
    unfold delete_darts
    rw [hnone]
  refine ⟨by rw [hrun], by rw [hrun], ?_, by rw [hnone2]; rfl, by rw [hnone2]⟩
  rw [hrun]
  unfold get_darts_by_id
  rw [show findById ({ db with records := eraseFirst db.records id1 } : DB).records id1 = none
       from findById_eraseFirst hnd]
  rfl

/-- Witness for C6 on `db1`: delete id 1 then get it, and delete absent id 2. -/
theorem delete_then_get_not_found_witness :
    ((db1.records.map darts.id).Nodup ∧
     findById db1.records 1 = some rec1 ∧ findById db1.records 2 = none) ∧
    ((delete_darts 1 true db1).resp =
      { status := 200,
        body := Body.message ("darts with id " ++ toString 1 ++ " deleted successfully") } ∧
    (delete_darts 1 true db1).db.records = eraseFirst db1.records 1 ∧
    (get_darts_by_id 1 (delete_darts 1 true db1).db).resp.status = 404 ∧
    (delete_darts 2 true db1).resp.status = 404 ∧
    (delete_darts 2 true db1).db = db1) :=
  ⟨⟨by decide, rfl, rfl⟩,
   delete_then_get_not_found db1 1 2 rec1 (by decide) rfl rfl⟩

end Darts

namespace Darts

/-- The spec invariant: every stored row satisfies create_date ≤ update_date. -/
def Inv (db : DB) : Prop := ∀ r ∈ db.records, r.create_date ≤ r.update_date

/-- Clock monotonicity across requests: the current reading `t` is at least
every stored `update_date` (each of those was a now() reading taken by an
earlier request). -/
def ClockLe (db : DB) (t : Nat) : Prop := ∀ r ∈ db.records, r.update_date ≤ t

/-- C7: `create_date ≤ update_date` holds after every operation: creation
stamps both fields with the same time, and PUT and PATCH only move
`update_date` forward to the current time while never writing
`create_date`, so the invariant is preserved whenever the clock has not
gone backwards relative to the stored timestamps. -/
theorem create_put_patch_preserve_timestamp_invariant (db : DB) (d : dartsCreate)
    (id : Nat) (t : Nat) (hinv : Inv db) (hclock : ClockLe db t) :
    Inv (create_record d t true db).db ∧
    Inv (update_darts_full id d t true db).db ∧
    Inv (update_darts_patch id d t true db).db := by
  refine ⟨?_, ?_, ?_⟩
  · intro r hr
    rcases List.mem_append.mp hr with hr | hr
    · exact hinv r hr
    · have heq := List.mem_singleton.mp hr
      subst heq
      exact Nat.le_refl t
  · cases hfind : findById db.records id with
    | none =>
        have hsame : (update_darts_full id d t true db).db = db := by
          unfold update_darts_full
          rw [hfind]
        rw [hsame]
        exact hinv
    | some record =>
        have hrun := update_darts_full_run d t hfind
        intro r hr
        rw [hrun] at hr
        rcases mem_replaceFirst hr with hr | hr
        · subst hr
          have hmem := (findById_some hfind).1
          show (applyData record (model_dump_all d)).create_date ≤ t
          rw [applyData_create_date]
          exact Nat.le_trans (hinv record hmem) (hclock record hmem)
        · exact hinv r hr
  · cases hfind : findById db.records id with
    | none =>
        have hsame : (update_darts_patch id d t true db).db = db := by
          unfold update_darts_patch
          rw [hfind]
        rw [hsame]
        exact hinv
    | some record =>
        have hrun := update_darts_patch_run d t hfind
        intro r hr
        rw [hrun] at hr
        rcases mem_replaceFirst hr with hr | hr
        · subst hr
          have hmem := (findById_some hfind).1
          show (applyData record (model_dump_set d)).create_date ≤ t
          rw [applyData_create_date]
          exact Nat.le_trans (hinv record hmem) (hclock record hmem)
        · exact hinv r hr

lemma inv_db1 : Inv db1 := by
  intro r hr
  have h := List.mem_singleton.mp hr
  subst h
  decide

lemma clockLe_db1 : ClockLe db1 9 := by
  intro r hr
  have h := List.mem_singleton.mp hr
  subst h
  decide

/-- Witness for C7 on `db1` at time 9. -/
theorem create_put_patch_preserve_timestamp_invariant_witness :
    (Inv db1 ∧ ClockLe db1 9) ∧
    (Inv (create_record requiredOnlyCreate 9 true db1).db ∧
     Inv (update_darts_full 1 requiredOnlyCreate 9 true db1).db ∧
     Inv (update_darts_patch 1 requiredOnlyCreate 9 true db1).db) :=
  ⟨⟨inv_db1, clockLe_db1⟩,
   create_put_patch_preserve_timestamp_invariant db1 requiredOnlyCreate 1 9
     inv_db1 clockLe_db1⟩

end Darts
